import Mathlib

/-
Verification of the AnoGAN detector (src/pyod/models/anogan.py) against its
natural-language specification.

Shallow embedding conventions:
  * machine floats are modelled by exact rationals (ℚ);
  * a tensor of shape (rows, cols) is a list of rows (`Mat`), a row is `Vec`;
  * the TensorFlow variable store is a map from variable ids to values; the
    external differentiable-computation collaborator (forward passes of the
    generator/discriminator, the binary cross-entropy reduction, and the Adam
    update rule) is abstracted by function parameters, while every piece of
    control flow, loss arithmetic, variable scoping and state mutation written
    in anogan.py itself is translated concretely;
  * numpy arrays owned by the caller live in an explicit heap so that
    in-place mutation (np.random.shuffle) and aliasing are visible;
  * Python exceptions (assert, check_array, check_is_fitted, check_parameter)
    become Except values.
-/

namespace AnoGANSpec

abbrev Vec := List ℚ

abbrev Mat := List (List ℚ)

/-- Mean of a list of rationals: `sum / length` (tf.keras.backend.mean). -/
def meanQ (xs : List ℚ) : ℚ := xs.sum / xs.length

/-- Elementwise absolute error of two rows (tf.keras.backend.abs of a difference). -/
def absErrRow (u v : Vec) : Vec := List.zipWith (fun a b => |a - b|) u v

/-- Dot product of two rows. -/
def dotQ (u v : Vec) : ℚ := (List.zipWith (fun a b => a * b) u v).sum

/-- A Keras `Dense` layer with bias: rows of `W` are output neurons. -/
def denseApply (W : Mat) (b x : Vec) : Vec :=
  List.zipWith (fun row bj => dotQ x row + bj) W b

/-- tf.ones_like on a row. -/
def onesLike (v : Vec) : Vec := List.replicate v.length 1

/-- tf.zeros_like on a row. -/
def zerosLike (v : Vec) : Vec := List.replicate v.length 0

/-- Elementwise scalar multiplication (the `* 0.9` label smoothing). -/
def scaleVec (c : ℚ) (v : Vec) : Vec := v.map (fun a => c * a)

/-- The TensorFlow variable store: variable ids to tensor values. -/
abbrev Store := ℕ → Mat

/-- Overwrite one variable of the store. -/
def setStore (s : Store) (v : ℕ) (x : Mat) : Store :=
  fun u => if u = v then x else s u

/-- A heap of numpy arrays, so in-place mutation and aliasing are explicit. -/
structure Heap where
  mem : ℕ → Mat
  next : ℕ

def Heap.read (h : Heap) (r : ℕ) : Mat := h.mem r

def Heap.write (h : Heap) (r : ℕ) (v : Mat) : Heap :=
  { mem := fun u => if u = r then v else h.mem u, next := h.next }

/-- `np.copy` / a fresh array: allocate a new reference holding `v`. -/
def Heap.alloc (h : Heap) (v : Mat) : Heap × ℕ :=
  ({ mem := fun u => if u = h.next then v else h.mem u, next := h.next + 1 }, h.next)

/-- Hyperparameters of AnoGAN.__init__ that the verified claims depend on;
defaults follow the source signature (anogan.py lines 117-124). -/
structure Config where
  dropout_rate : ℚ := 1/5
  latent_dim_G : ℕ := 2
  G_layers : List ℕ := [20, 10, 3, 10, 20]
  D_layers : List ℕ := [20, 10, 5]
  index_D_layer_for_recon_error : ℕ := 1
  epochs : ℕ := 500
  batch_size : ℕ := 32
  epochs_query : ℕ := 20
  preprocessing : Bool := false
  learning_rate : ℚ := 1/1000
  learning_rate_query : ℚ := 1/100
  contamination : ℚ := 1/10

/-- Modelled from the spec: `check_parameter` lives in pyod/utils/utility.py,
which is not under src/; the spec states the dropout rate is "Validated once at
construction: dropout rate ∈ [0,1)".  With `includeLeft` the valid range is
`lo ≤ p < hi`. -/
def check_parameter (p lo hi : ℚ) (includeLeft : Bool) : Bool :=
  (if includeLeft then decide (lo ≤ p) else decide (lo < p)) && decide (p < hi)

/-- Modelled from the spec: BaseDetector.__init__ (models/base.py, not under
src/) "owns `contamination` validation (range (0, 0.5))". -/
def base_detector_contamination_ok (c : ℚ) : Bool :=
  decide (0 < c) && decide (c < 1/2)

inductive ConfigError
  | invalidContamination
  | invalidDropout
deriving DecidableEq

/-- Per-query trainable affine map built by fit_query: ids of the Dense kernel
`W` and bias `b`, the query-scoped Adam optimizer, and the trainable-variable
list of the compiled query model (W and b first, then the generator and
discriminator variables). -/
structure QueryModel where
  wId : ℕ
  bId : ℕ
  optId : ℕ
  trainableVars : List ℕ
deriving DecidableEq

/-- The fitted-detector state: everything AnoGAN stores on `self` after
_build_model/fit that the claims touch.  `nextId` is the allocation counter
for fresh TensorFlow variable/optimizer ids. -/
structure Detector where
  latent : ℕ
  nFeatures : ℕ
  genVarIds : List ℕ
  discVarIds : List ℕ
  genOptId : ℕ
  discOptId : ℕ
  store : Store
  optIter : ℕ → ℕ
  hist_loss_generator : List ℚ
  hist_loss_discriminator : List ℚ
  queryModel : Option QueryModel
  decisionScores : Option (List ℚ)
  scaler_ : Mat → Mat
  nextId : ℕ

/-- AnoGAN._build_model (lines 145-184).  The generator owns one Dense per
entry of G_layers plus the final projection Dense (kernel and bias each), the
discriminator one Dense per entry of D_layers plus the sigmoid classifier
Dense; Dropout layers own no variables.  Line 182 allocates a SINGLE Adam
optimizer `opt` and lines 183-184 compile BOTH networks with it, so the two
networks share one optimizer object: `genOptId = discOptId`. -/
def build_model (cfg : Config) (nFeatures startId : ℕ) (init : Store) : Detector :=
  let nGen := 2 * (cfg.G_layers.length + 1)
  let nDisc := 2 * (cfg.D_layers.length + 1)
  let genVarIds := (List.range nGen).map (fun i => startId + i)
  let discVarIds := (List.range nDisc).map (fun i => startId + nGen + i)
  let optId := startId + nGen + nDisc
  { latent := cfg.latent_dim_G
    nFeatures := nFeatures
    genVarIds := genVarIds
    discVarIds := discVarIds
    genOptId := optId
    discOptId := optId
    store := init
    optIter := fun _ => 0
    hist_loss_generator := []
    hist_loss_discriminator := []
    queryModel := none
    decisionScores := none
    scaler_ := fun M => M
    nextId := optId + 1 }

/-- Ghost record of one adversarial training step: the two loss values and,
for each network, which loss its gradient was taken from and with respect to
which variables (the two separate GradientTape.gradient calls of lines
227 and 232). -/
structure StepInfo where
  X_gen : Mat
  real_output : Vec
  fake_output : Vec
  total_loss_generator : ℚ
  total_loss_discriminator : ℚ
  grad_gen_loss : ℚ
  grad_gen_wrt : List ℕ
  grad_disc_loss : ℚ
  grad_disc_wrt : List ℕ

/-- One `optimizer.apply_gradients` call: the abstract Adam rule `adam` is fed
the optimizer's current iteration count and rewrites each listed variable. -/
def apply_gradients (adam : ℕ → ℕ → Mat → Mat) (iter : ℕ) (vars : List ℕ)
    (s : Store) : Store :=
  vars.foldl (fun st v => setStore st v (adam iter v (st v))) s

/-- AnoGAN.train_step (lines 206-237).  `ce` abstracts
tf.keras.losses.BinaryCrossentropy (targets, predictions); `Gf`/`Df` abstract
the generator and discriminator forward passes (store, batch, training flag),
`Df` returning (classifier probabilities, hidden-layer embedding); `adam`
abstracts the Adam update rule.  The generator gradient is taken from
total_loss_generator with respect to generator.trainable_variables only, the
discriminator gradient from total_loss_discriminator with respect to
discriminator.trainable_variables only, and each apply_gradients call goes
through that network's compiled optimizer (bumping its iteration counter). -/
def train_step (ce : Vec → Vec → ℚ)
    (Gf : Store → Mat → Bool → Mat)
    (Df : Store → Mat → Bool → Vec × Mat)
    (adam : ℕ → ℕ → Mat → Mat)
    (d : Detector) (X_original latent_noise : Mat) : Detector × StepInfo :=
  let X_gen := Gf d.store latent_noise true
  let real_output := (Df d.store X_original true).1
  let fake_output := (Df d.store X_gen true).1
  let loss_discriminator := ce (onesLike fake_output) fake_output
  let total_loss_generator := loss_discriminator
  let real_loss := ce (scaleVec (9/10) (onesLike real_output)) real_output
  let fake_loss := ce (zerosLike fake_output) fake_output
  let total_loss_discriminator := real_loss + fake_loss
  let s1 := apply_gradients adam (d.optIter d.genOptId) d.genVarIds d.store
  let it1 := fun o => if o = d.genOptId then d.optIter o + 1 else d.optIter o
  let s2 := apply_gradients adam (it1 d.discOptId) d.discVarIds s1
  let it2 := fun o => if o = d.discOptId then it1 o + 1 else it1 o
  ({ d with
      store := s2
      optIter := it2
      hist_loss_generator := d.hist_loss_generator ++ [total_loss_generator]
      hist_loss_discriminator := d.hist_loss_discriminator ++ [total_loss_discriminator] },
   { X_gen := X_gen
     real_output := real_output
     fake_output := fake_output
     total_loss_generator := total_loss_generator
     total_loss_discriminator := total_loss_discriminator
     grad_gen_loss := total_loss_generator
     grad_gen_wrt := d.genVarIds
     grad_disc_loss := total_loss_discriminator
     grad_disc_wrt := d.discVarIds })

inductive Net
  | generator
  | discriminator
deriving DecidableEq

inductive QueryError
  | shapeError
  | noIterations
deriving DecidableEq

/-- Ghost log entries of one query-loop iteration: the generator and
discriminator forward passes with their training flags.  All three calls are
made in inference mode: generator and discriminator were called with
training=False when the query graph was built (lines 252-253; in the Keras
functional API an explicit training argument given at graph-construction time
overrides the training flag of the outer model call), and the discriminator
call on the query sample (line 269) passes training=False directly. -/
def query_iter_log : List (Net × Bool) :=
  [(Net.generator, false), (Net.discriminator, false), (Net.discriminator, false)]

/-- One iteration's total loss (lines 267-278), computed from the current
store: `z = W·0 + b` from the pseudo input np.zeros((1, latent)), reconstruct
via the frozen generator, embed both reconstruction and query sample via the
frozen discriminator, and sum the two double-mean absolute-error terms
(`mean(mean(abs_err, axis=-1))` over the 1-row batch). -/
def query_iter_loss (Gf : Store → Mat → Bool → Mat)
    (Df : Store → Mat → Bool → Vec × Mat)
    (latent wId bId : ℕ) (qrow : Vec) (s : Store) : ℚ :=
  let zerosRow := List.replicate latent (0 : ℚ)
  let z := denseApply (s wId) (s bId).headI zerosRow
  let sample_gen := (Gf s [z] false).headI
  let sample_disc_latent := (Df s [sample_gen] false).2.headI
  let sample_disc_latent_original := (Df s [qrow] false).2.headI
  let loss_recon_gen := meanQ ([absErrRow qrow sample_gen].map meanQ)
  let loss_recon_disc :=
    meanQ ([absErrRow sample_disc_latent_original sample_disc_latent].map meanQ)
  loss_recon_gen + loss_recon_disc

/-- Lines 281-283: `tape.gradient(total_loss, query_model.trainable_variables[0:2])`
followed by `apply_gradients` on the same slice — only the first two trainable
variables of the query model (the Dense kernel W and bias b) are rewritten by
the query-scoped Adam rule `adam` at iteration `i`. -/
def query_update (adam : ℕ → Mat → Mat) (i : ℕ) (tvars : List ℕ) (s : Store) : Store :=
  (tvars.take 2).foldl (fun st v => setStore st v (adam i (st v))) s

/-- The store after the query updates at iteration indices i, i+1, ..., i+k-1. -/
def query_store_seq (adam : ℕ → Mat → Mat) (tvars : List ℕ) :
    Store → ℕ → ℕ → Store
  | s, _, 0 => s
  | s, i, Nat.succ k => query_store_seq adam tvars (query_update adam i tvars s) (i + 1) k

/-- The `for i in range(self.epochs_query)` loop of lines 261-283, started at
iteration index `i` with `k` iterations left: each iteration computes the
total loss from the current store and then updates W and b; the returned
option holds the total loss of the final iteration (none when no iteration
ran, in which case line 285 raises a NameError on total_loss). -/
def query_loop (Gf : Store → Mat → Bool → Mat)
    (Df : Store → Mat → Bool → Vec × Mat)
    (adam : ℕ → Mat → Mat) (latent wId bId : ℕ) (tvars : List ℕ) (qrow : Vec) :
    ℕ → ℕ → Store → Store × Option ℚ × List (Net × Bool)
  | _, 0, s => (s, none, [])
  | i, Nat.succ k, s =>
    let total := query_iter_loss Gf Df latent wId bId qrow s
    let s1 := query_update adam i tvars s
    let r := query_loop Gf Df adam latent wId bId tvars qrow (i + 1) k s1
    (r.1, some (r.2.1.getD total), query_iter_log ++ r.2.2)

/-- Result of one fit_query call: the detector as left behind by the call, the
returned anomaly score (or the raised exception), and the ghost forward log. -/
structure QueryResult where
  detector : Detector
  result : Except QueryError ℚ
  forwardLog : List (Net × Bool)

/-- AnoGAN.fit_query (lines 239-285).  After the two shape asserts it builds
the ephemeral query model: a fresh Dense(latent, use_bias=True) whose kernel
W (`kernelInit`, Keras glorot initialization) and bias b (Keras zeros
initialization) are the only variables updated, chained into the frozen
generator and discriminator; the compiled model's trainable-variable list is
[W, b] ++ generator variables ++ discriminator variables, and a fresh Adam
optimizer is compiled for it.  Line 255 ASSIGNS the model to self.query_model,
a side effect that persists after the call returns.  The loop then runs
epochs_query gradient iterations and line 285 returns the final total loss. -/
def fit_query (cfg : Config) (Gf : Store → Mat → Bool → Mat)
    (Df : Store → Mat → Bool → Vec × Mat)
    (adam : ℕ → Mat → Mat) (kernelInit : Mat)
    (d : Detector) (query_sample : Mat) : QueryResult :=
  if query_sample.length = 1 then
    if query_sample.headI.length = d.nFeatures then
      let wId := d.nextId
      let bId := d.nextId + 1
      let qOptId := d.nextId + 2
      let s0 := setStore (setStore d.store wId kernelInit) bId
        [List.replicate d.latent (0 : ℚ)]
      let tvars := wId :: bId :: (d.genVarIds ++ d.discVarIds)
      let qrow := query_sample.headI
      let r := query_loop Gf Df adam d.latent wId bId tvars qrow 0 cfg.epochs_query s0
      let d1 := { d with
        store := r.1
        nextId := d.nextId + 3
        queryModel := some ⟨wId, bId, qOptId, tvars⟩ }
      let res := match r.2.1 with
        | some total => Except.ok total
        | none => Except.error QueryError.noIterations
      ⟨d1, res, r.2.2⟩
    else ⟨d, Except.error QueryError.shapeError, []⟩
  else ⟨d, Except.error QueryError.shapeError, []⟩

/-- Ghost record of one epoch of the fit loop (lines 318-329): the shuffled
working array, the minibatch drawn from its front, and the latent noise. -/
structure StepRec where
  epoch : ℕ
  shuffled : Mat
  batch : Mat
  noise : Mat

/-- np.random.normal(0, 1, (rows, latent)): a rows × latent matrix of draws
from the abstract noise source `noiseEntry` (epoch, row, column). -/
def noise_mat (noiseEntry : ℕ → ℕ → ℕ → ℚ) (e rows latent : ℕ) : Mat :=
  (List.range rows).map (fun r => (List.range latent).map (fun c => noiseEntry e r c))

/-- The `for n in range(self.epochs)` loop of fit (lines 318-329), with `k`
epochs left starting at epoch `e`: shuffle X_norm in place (writing through
its heap reference), take the first min(batch_size, n_samples) rows, draw a
matching latent-noise matrix and run one train_step. -/
def train_loop (ce : Vec → Vec → ℚ)
    (Gf : Store → Mat → Bool → Mat)
    (Df : Store → Mat → Bool → Vec × Mat)
    (adam : ℕ → ℕ → Mat → Mat)
    (shuffle : ℕ → Mat → Mat) (noiseEntry : ℕ → ℕ → ℕ → ℚ)
    (cfg : Config) (n_samples xnormRef : ℕ) :
    ℕ → ℕ → Heap → Detector → Heap × Detector × List StepRec
  | _, 0, h, d => (h, d, [])
  | e, Nat.succ k, h, d =>
    let shuffled := shuffle e (h.read xnormRef)
    let h1 := h.write xnormRef shuffled
    let X_train_sel := shuffled.take (min cfg.batch_size n_samples)
    let latent_noise := noise_mat noiseEntry e X_train_sel.length cfg.latent_dim_G
    let d1 := (train_step ce Gf Df adam d X_train_sel latent_noise).1
    let r := train_loop ce Gf Df adam shuffle noiseEntry cfg n_samples xnormRef
      (e + 1) k h1 d1
    (r.1, r.2.1, ⟨e, shuffled, X_train_sel, latent_noise⟩ :: r.2.2)

/-- The per-sample scoring loop of fit (lines 338-347) and decision_function
(lines 381-388): invoke fit_query on each 1 × n_features row slice in order,
threading the detector (fit_query mutates it) and collecting the scores and a
ghost trace of the exact samples passed. -/
def score_loop (cfg : Config) (Gf : Store → Mat → Bool → Mat)
    (Df : Store → Mat → Bool → Vec × Mat)
    (adam : ℕ → Mat → Mat) (kernelInit : ℕ → Mat) :
    List Vec → ℕ → Detector → Except QueryError (Detector × List ℚ × List Mat)
  | [], _, d => Except.ok (d, [], [])
  | row :: rest, i, d =>
    let qr := fit_query cfg Gf Df adam (kernelInit i) d [row]
    match qr.result with
    | Except.error e => Except.error e
    | Except.ok score =>
      match score_loop cfg Gf Df adam kernelInit rest (i + 1) qr.detector with
      | Except.error e => Except.error e
      | Except.ok (dF, scores, rowsT) => Except.ok (dF, score :: scores, [row] :: rowsT)

inductive FitError
  | invalidInput
  | queryFailed (e : QueryError)
deriving DecidableEq

/-- Result of fit: the heap as left behind, the fitted detector, and ghost
traces of the training steps, the samples passed to fit_query, and the
decision scores. -/
structure FitResult where
  heap : Heap
  detector : Detector
  trainTrace : List StepRec
  queryRows : List Mat
  scores : List ℚ

/-- AnoGAN.fit (lines 287-352).  check_array validation is modelled as the
rectangular nonempty-shape check; `scalerFit A B` abstracts a StandardScaler
fitted on A and applied to B (fit_transform X = scalerFit X X).  The working
array X_norm is a FRESH heap allocation (np.copy(X) or the scaler output), so
the per-epoch in-place shuffling writes only through that fresh reference;
after training, X_norm is re-derived from the caller's untouched X (lines
333-336, reading the caller's reference again) and every sample of that
re-derived array is scored in order. -/
def fit (cfg : Config) (ce : Vec → Vec → ℚ)
    (Gf : Store → Mat → Bool → Mat)
    (Df : Store → Mat → Bool → Vec × Mat)
    (adamT : ℕ → ℕ → Mat → Mat) (adamQ : ℕ → Mat → Mat) (kernelInit : ℕ → Mat)
    (shuffle : ℕ → Mat → Mat) (noiseEntry : ℕ → ℕ → ℕ → ℚ)
    (scalerFit : Mat → Mat → Mat) (init : Store)
    (h : Heap) (xRef : ℕ) : Except FitError FitResult :=
  let X := h.read xRef
  if X.length = 0 then Except.error FitError.invalidInput else
  if X.headI.length = 0 then Except.error FitError.invalidInput else
  if X.all (fun row => row.length = X.headI.length) then
    let n_samples := X.length
    let d0 := build_model cfg X.headI.length 0 init
    let X_norm0 := if cfg.preprocessing then scalerFit X X else X
    let p := h.alloc X_norm0
    let tl := train_loop ce Gf Df adamT shuffle noiseEntry cfg n_samples p.2
      0 cfg.epochs p.1 d0
    let d1 := { tl.2.1 with scaler_ := scalerFit X }
    let X2 := tl.1.read xRef
    let X_norm2 := if cfg.preprocessing then scalerFit X X2 else X2
    let p2 := tl.1.alloc X_norm2
    match score_loop cfg Gf Df adamQ kernelInit X_norm2 0 d1 with
    | Except.error e => Except.error (FitError.queryFailed e)
    | Except.ok (d2, scores, rowsT) =>
      Except.ok { heap := p2.1
                  detector := { d2 with decisionScores := some scores }
                  trainTrace := tl.2.2
                  queryRows := rowsT
                  scores := scores }
  else Except.error FitError.invalidInput

/-- The externally visible detector object: the stored hyperparameters and,
once fit has completed, the fitted state (which carries decision_scores_). -/
structure AnoGANState where
  cfg : Config
  fitted : Option Detector

/-- AnoGAN.__init__ (lines 117-143): super().__init__ validates contamination
(modelled from the spec, base.py is not under src/), then the attributes are
stored and line 143 validates dropout_rate via check_parameter with
include_left=True, i.e. dropout_rate ∈ [0,1). -/
def anogan_init (cfg : Config) : Except ConfigError AnoGANState :=
  if base_detector_contamination_ok cfg.contamination then
    if check_parameter cfg.dropout_rate 0 1 true then
      Except.ok { cfg := cfg, fitted := none }
    else Except.error ConfigError.invalidDropout
  else Except.error ConfigError.invalidContamination

inductive PredictError
  | notFitted
  | invalidInput
  | queryFailed (e : QueryError)
deriving DecidableEq

/-- Result of decision_function: the heap as left behind, the detector as
mutated by the per-sample queries, the ghost trace of scored samples, and the
returned scores. -/
structure PredictResult where
  heap : Heap
  detector : Detector
  queryRows : List Mat
  scores : List ℚ

/-- AnoGAN.decision_function (lines 354-392).  check_is_fitted(self,
['decision_scores_']) raises a not-fitted error first (line 372, before any
input validation); then X is validated, transformed by the fitted scaler (or
copied), and every row is scored by fit_query in input order. -/
def decision_function (st : AnoGANState) (Gf : Store → Mat → Bool → Mat)
    (Df : Store → Mat → Bool → Vec × Mat)
    (adamQ : ℕ → Mat → Mat) (kernelInit : ℕ → Mat)
    (h : Heap) (xRef : ℕ) : Except PredictError PredictResult :=
  match st.fitted with
  | none => Except.error PredictError.notFitted
  | some d =>
    let X := h.read xRef
    if X.length = 0 then Except.error PredictError.invalidInput else
    if X.headI.length = 0 then Except.error PredictError.invalidInput else
    if X.all (fun row => row.length = X.headI.length) then
      let X_norm := if st.cfg.preprocessing then d.scaler_ X else X
      let p := h.alloc X_norm
      match score_loop st.cfg Gf Df adamQ kernelInit X_norm 0 d with
      | Except.error e => Except.error (PredictError.queryFailed e)
      | Except.ok (d2, scores, rowsT) =>
        Except.ok { heap := p.1, detector := d2, queryRows := rowsT, scores := scores }
    else Except.error PredictError.invalidInput

/-! Concrete instances used by the witness theorems. -/

def exCfg : Config :=
  { dropout_rate := 1/5, latent_dim_G := 1, G_layers := [1], D_layers := [1],
    index_D_layer_for_recon_error := 0, epochs := 1, batch_size := 2,
    epochs_query := 1, preprocessing := false, learning_rate := 1/1000,
    learning_rate_query := 1/100, contamination := 1/10 }

def exStore : Store := fun _ => [[0]]

def exDetector : Detector := build_model exCfg 1 0 exStore

def exGf : Store → Mat → Bool → Mat := fun _ m _ => m

def exDf : Store → Mat → Bool → Vec × Mat := fun _ m _ => (m.map (fun _ => 1/2), m)

def exAdamT : ℕ → ℕ → Mat → Mat := fun _ _ v => v

def exAdamQ : ℕ → Mat → Mat := fun _ v => v

def exCe : Vec → Vec → ℚ := fun t p => meanQ (absErrRow t p)

def exKernel : Mat := [[0]]

def exHeap : Heap := { mem := fun _ => [[0]], next := 1 }

/-! Helper lemmas about the store, the heap and the query loop. -/

lemma setStore_ne (s : Store) (v : ℕ) (x : Mat) (u : ℕ) (h : u ≠ v) :
    setStore s v x u = s u := by
  simp [setStore, h]

lemma meanQ_singleton (x : ℚ) : meanQ [x] = x := by
  simp [meanQ]

lemma meanQ_singleton_map (xs : List ℚ) : meanQ ([xs].map meanQ) = meanQ xs := by
  simp [List.map, meanQ_singleton]

lemma Heap.read_write_self (h : Heap) (r : ℕ) (v : Mat) :
    (h.write r v).read r = v := by
  simp [Heap.read, Heap.write]

lemma Heap.read_write_ne (h : Heap) (r r' : ℕ) (v : Mat) (hne : r' ≠ r) :
    (h.write r v).read r' = h.mem r' := by
  simp [Heap.read, Heap.write, hne]

lemma Heap.write_next (h : Heap) (r : ℕ) (v : Mat) : (h.write r v).next = h.next := rfl

lemma Heap.alloc_read_self (h : Heap) (v : Mat) :
    (h.alloc v).1.read (h.alloc v).2 = v := by
  simp [Heap.read, Heap.alloc]

lemma Heap.alloc_mem_ne (h : Heap) (v : Mat) (r : ℕ) (hr : r ≠ h.next) :
    (h.alloc v).1.mem r = h.mem r := by
  simp [Heap.alloc, hr]

lemma query_update_eq (adam : ℕ → Mat → Mat) (i : ℕ) (w b : ℕ) (rest : List ℕ)
    (s : Store) :
    query_update adam i (w :: b :: rest) s =
      setStore (setStore s w (adam i (s w))) b
        (adam i (setStore s w (adam i (s w)) b)) := rfl

lemma query_update_frame (adam : ℕ → Mat → Mat) (i : ℕ) (w b : ℕ) (rest : List ℕ)
    (s : Store) (u : ℕ) (h1 : u ≠ w) (h2 : u ≠ b) :
    query_update adam i (w :: b :: rest) s u = s u := by
  rw [query_update_eq]
  rw [setStore_ne _ _ _ _ h2, setStore_ne _ _ _ _ h1]

lemma query_store_seq_frame (adam : ℕ → Mat → Mat) (w b : ℕ) (rest : List ℕ) :
    ∀ (k i : ℕ) (s : Store) (u : ℕ), u ≠ w → u ≠ b →
      query_store_seq adam (w :: b :: rest) s i k u = s u := by
  intro k
  induction k with
  | zero => intro i s u _ _; rfl
  | succ k ih =>
    intro i s u h1 h2
    show query_store_seq adam (w :: b :: rest) (query_update adam i (w :: b :: rest) s) (i + 1) k u = s u
    rw [ih (i + 1) _ u h1 h2, query_update_frame adam i w b rest s u h1 h2]

lemma query_loop_store (Gf : Store → Mat → Bool → Mat)
    (Df : Store → Mat → Bool → Vec × Mat) (adam : ℕ → Mat → Mat)
    (latent w b : ℕ) (rest : List ℕ) (qrow : Vec) :
    ∀ (k i : ℕ) (s : Store),
      (query_loop Gf Df adam latent w b (w :: b :: rest) qrow i k s).1 =
        query_store_seq adam (w :: b :: rest) s i k := by
  intro k
  induction k with
  | zero => intro i s; rfl
  | succ k ih =>
    intro i s
    show (query_loop Gf Df adam latent w b (w :: b :: rest) qrow (i + 1) k
      (query_update adam i (w :: b :: rest) s)).1 = _
    rw [ih]
    rfl

lemma query_loop_loss (Gf : Store → Mat → Bool → Mat)
    (Df : Store → Mat → Bool → Vec × Mat) (adam : ℕ → Mat → Mat)
    (latent w b : ℕ) (rest : List ℕ) (qrow : Vec) :
    ∀ (k i : ℕ) (s : Store),
      (query_loop Gf Df adam latent w b (w :: b :: rest) qrow i (k + 1) s).2.1 =
        some (query_iter_loss Gf Df latent w b qrow
          (query_store_seq adam (w :: b :: rest) s i k)) := by
  intro k
  induction k with
  | zero => intro i s; rfl
  | succ k ih =>
    intro i s
    show some (((query_loop Gf Df adam latent w b (w :: b :: rest) qrow (i + 1) (k + 1)
      (query_update adam i (w :: b :: rest) s)).2.1).getD _) = _
    rw [ih]
    rfl

lemma query_loop_log_false (Gf : Store → Mat → Bool → Mat)
    (Df : Store → Mat → Bool → Vec × Mat) (adam : ℕ → Mat → Mat)
    (latent w b : ℕ) (tvars : List ℕ) (qrow : Vec) :
    ∀ (k i : ℕ) (s : Store) (e : Net × Bool),
      e ∈ (query_loop Gf Df adam latent w b tvars qrow i k s).2.2 → e.2 = false := by
  intro k
  induction k with
  | zero => intro i s e he; cases he
  | succ k ih =>
    intro i s e he
    rcases List.mem_append.mp he with hl | hr
    · simp [query_iter_log] at hl
      rcases hl with rfl | rfl <;> rfl
    · exact ih (i + 1) _ e hr

/-- Claim C1: a latent query never changes generator or discriminator
parameters — the optimizer update inside fit_query rewrites only the affine
map's W and b (the two fresh variables), and every forward pass through the
generator and the discriminator inside the query runs in inference mode
(training flag false). -/
theorem fit_query_freezes_generator_and_discriminator
    (cfg : Config) (Gf : Store → Mat → Bool → Mat)
    (Df : Store → Mat → Bool → Vec × Mat)
    (adam : ℕ → Mat → Mat) (kernelInit : Mat) (d : Detector) (q : Mat)
    (hfresh : ∀ v ∈ d.genVarIds ++ d.discVarIds, v < d.nextId) :
    (∀ v : ℕ, v ≠ d.nextId → v ≠ d.nextId + 1 →
        (fit_query cfg Gf Df adam kernelInit d q).detector.store v = d.store v)
    ∧ (∀ v ∈ d.genVarIds ++ d.discVarIds,
        (fit_query cfg Gf Df adam kernelInit d q).detector.store v = d.store v)
    ∧ (∀ e ∈ (fit_query cfg Gf Df adam kernelInit d q).forwardLog, e.2 = false) := by
  by_cases h1 : q.length = 1
  · by_cases h2 : q.headI.length = d.nFeatures
    · have key : ∀ v : ℕ, v ≠ d.nextId → v ≠ d.nextId + 1 →
          (fit_query cfg Gf Df adam kernelInit d q).detector.store v = d.store v := by
        intro v hv1 hv2
        simp only [fit_query, if_pos h1, if_pos h2]
        rw [query_loop_store]
        rw [query_store_seq_frame adam _ _ _ _ _ _ v hv1 hv2]
        rw [setStore_ne _ _ _ _ hv2, setStore_ne _ _ _ _ hv1]
      refine ⟨key, ?_, ?_⟩
      · intro v hv
        have hlt := hfresh v hv
        exact key v (by omega) (by omega)
      · intro e he
        revert he
        simp only [fit_query, if_pos h1, if_pos h2]
        exact query_loop_log_false Gf Df adam d.latent d.nextId (d.nextId + 1) _ q.headI
          cfg.epochs_query 0 _ e
    · simp [fit_query, if_pos h1, if_neg h2]
  · simp [fit_query, if_neg h1]

/-- Witness for C1 on a concrete fitted detector and query. -/
theorem fit_query_freezes_generator_and_discriminator_witness :
    (∀ v : ℕ, v ≠ exDetector.nextId → v ≠ exDetector.nextId + 1 →
        (fit_query exCfg exGf exDf exAdamQ exKernel exDetector [[0]]).detector.store v
          = exDetector.store v)
    ∧ (∀ v ∈ exDetector.genVarIds ++ exDetector.discVarIds,
        (fit_query exCfg exGf exDf exAdamQ exKernel exDetector [[0]]).detector.store v
          = exDetector.store v)
    ∧ (∀ e ∈ (fit_query exCfg exGf exDf exAdamQ exKernel exDetector [[0]]).forwardLog,
        e.2 = false) :=
  fit_query_freezes_generator_and_discriminator exCfg exGf exDf exAdamQ exKernel
    exDetector [[0]] (by decide)

/-- Claim C2: each query iteration's total loss is the unweighted sum of the
feature-space mean absolute error between query sample and reconstruction and
the embedding-space mean absolute error between the discriminator embeddings
of the query sample and of the reconstruction; fit_query returns exactly the
total loss of the final iteration, and the pseudo-input to the affine map is
the all-zeros vector of length latent_dim_G. -/
theorem fit_query_returns_final_total_loss
    (cfg : Config) (Gf : Store → Mat → Bool → Mat)
    (Df : Store → Mat → Bool → Vec × Mat)
    (adam : ℕ → Mat → Mat) (kernelInit : Mat) (d : Detector) (qrow : Vec)
    (hE : 1 ≤ cfg.epochs_query) (hlen : qrow.length = d.nFeatures) :
    (fit_query cfg Gf Df adam kernelInit d [qrow]).result =
      Except.ok
        (let wId := d.nextId
         let bId := d.nextId + 1
         let sF := query_store_seq adam (wId :: bId :: (d.genVarIds ++ d.discVarIds))
           (setStore (setStore d.store wId kernelInit) bId
             [List.replicate d.latent (0 : ℚ)]) 0 (cfg.epochs_query - 1)
         let pseudo_input := List.replicate d.latent (0 : ℚ)
         let z := denseApply (sF wId) (sF bId).headI pseudo_input
         let sample_gen := (Gf sF [z] false).headI
         let emb_gen := (Df sF [sample_gen] false).2.headI
         let emb_query := (Df sF [qrow] false).2.headI
         meanQ (absErrRow qrow sample_gen) + meanQ (absErrRow emb_query emb_gen)) := by
  obtain ⟨m, hm⟩ : ∃ m, cfg.epochs_query = m + 1 := ⟨cfg.epochs_query - 1, by omega⟩
  have h1 : ([qrow] : Mat).length = 1 := rfl
  have h2 : ([qrow] : Mat).headI.length = d.nFeatures := hlen
  simp only [fit_query, if_pos h1, if_pos h2, hm]
  rw [query_loop_loss]
  simp only [Nat.add_sub_cancel, query_iter_loss, meanQ_singleton_map, List.headI]

/-- Witness for C2 on a concrete fitted detector and query. -/
theorem fit_query_returns_final_total_loss_witness :
    (fit_query exCfg exGf exDf exAdamQ exKernel exDetector [[0]]).result =
      Except.ok
        (let wId := exDetector.nextId
         let bId := exDetector.nextId + 1
         let sF := query_store_seq exAdamQ
           (wId :: bId :: (exDetector.genVarIds ++ exDetector.discVarIds))
           (setStore (setStore exDetector.store wId exKernel) bId
             [List.replicate exDetector.latent (0 : ℚ)]) 0 (exCfg.epochs_query - 1)
         let pseudo_input := List.replicate exDetector.latent (0 : ℚ)
         let z := denseApply (sF wId) (sF bId).headI pseudo_input
         let sample_gen := (exGf sF [z] false).headI
         let emb_gen := (exDf sF [sample_gen] false).2.headI
         let emb_query := (exDf sF [[0] ] false).2.headI
         meanQ (absErrRow [0] sample_gen) + meanQ (absErrRow emb_query emb_gen)) :=
  fit_query_returns_final_total_loss exCfg exGf exDf exAdamQ exKernel exDetector [0]
    (by decide) (by decide)

/-- Claim C3: one adversarial training step computes the generator loss as
binary cross-entropy with target 1 on the fake probabilities and the
discriminator loss as binary cross-entropy with target 0.9 on the real
probabilities plus binary cross-entropy with target 0 on the fake
probabilities; the generator gradient is taken only with respect to the
generator variables and the discriminator gradient only with respect to the
discriminator variables, in two separate gradient computations over disjoint
variable sets. -/
theorem train_step_losses_and_separate_gradients :
    (∀ (ce : Vec → Vec → ℚ) (Gf : Store → Mat → Bool → Mat)
        (Df : Store → Mat → Bool → Vec × Mat) (adam : ℕ → ℕ → Mat → Mat)
        (d : Detector) (X noise : Mat),
      (train_step ce Gf Df adam d X noise).2.total_loss_generator
          = ce (onesLike (train_step ce Gf Df adam d X noise).2.fake_output)
              (train_step ce Gf Df adam d X noise).2.fake_output
      ∧ (train_step ce Gf Df adam d X noise).2.total_loss_discriminator
          = ce (scaleVec (9/10)
                (onesLike (train_step ce Gf Df adam d X noise).2.real_output))
              (train_step ce Gf Df adam d X noise).2.real_output
            + ce (zerosLike (train_step ce Gf Df adam d X noise).2.fake_output)
              (train_step ce Gf Df adam d X noise).2.fake_output
      ∧ (train_step ce Gf Df adam d X noise).2.grad_gen_loss
          = (train_step ce Gf Df adam d X noise).2.total_loss_generator
      ∧ (train_step ce Gf Df adam d X noise).2.grad_gen_wrt = d.genVarIds
      ∧ (train_step ce Gf Df adam d X noise).2.grad_disc_loss
          = (train_step ce Gf Df adam d X noise).2.total_loss_discriminator
      ∧ (train_step ce Gf Df adam d X noise).2.grad_disc_wrt = d.discVarIds)
    ∧ (∀ (cfg : Config) (nf s0 : ℕ) (init : Store),
        ((build_model cfg nf s0 init).genVarIds).Disjoint
          (build_model cfg nf s0 init).discVarIds) := by
  constructor
  · intro ce Gf Df adam d X noise
    exact ⟨rfl, rfl, rfl, rfl, rfl, rfl⟩
  · intro cfg nf s0 init
    intro a ha hb
    simp only [build_model, List.mem_map, List.mem_range] at ha hb
    obtain ⟨i, hi, rfl⟩ := ha
    obtain ⟨j, hj, hij⟩ := hb
    omega

/-- Claim C5 counterexample: the claim asserts that generator and
discriminator updates use optimizer state not shared between the networks,
i.e. that the two compiled optimizers differ; on the concretely built model
they are the same single Adam instance (lines 182-184). -/
theorem build_model_optimizers_not_distinct_counterexample :
    (build_model exCfg 1 0 exStore).genOptId
      = (build_model exCfg 1 0 exStore).discOptId := by decide

/-- Claim C5 (amended): _build_model allocates one single Adam optimizer and
compiles both networks with it, so the generator update and the discriminator
update of a training step go through the same shared optimizer object — one
train_step advances the shared optimizer's iteration counter by two. -/
theorem train_step_uses_single_shared_optimizer :
    (∀ (cfg : Config) (nf s0 : ℕ) (init : Store),
      (build_model cfg nf s0 init).genOptId = (build_model cfg nf s0 init).discOptId)
    ∧ (∀ (ce : Vec → Vec → ℚ) (Gf : Store → Mat → Bool → Mat)
        (Df : Store → Mat → Bool → Vec × Mat) (adam : ℕ → ℕ → Mat → Mat)
        (d : Detector) (X noise : Mat), d.genOptId = d.discOptId →
      (train_step ce Gf Df adam d X noise).1.optIter d.genOptId
        = d.optIter d.genOptId + 2) := by
  constructor
  · intro cfg nf s0 init
    rfl
  · intro ce Gf Df adam d X noise hshared
    simp [train_step, hshared]

/-- Witness for C5's amended theorem on a concrete built model. -/
theorem train_step_uses_single_shared_optimizer_witness :
    (build_model exCfg 1 0 exStore).genOptId = (build_model exCfg 1 0 exStore).discOptId
    ∧ (train_step exCe exGf exDf exAdamT exDetector [[0]] [[0]]).1.optIter
        exDetector.genOptId = exDetector.optIter exDetector.genOptId + 2 :=
  ⟨train_step_uses_single_shared_optimizer.1 exCfg 1 0 exStore,
   train_step_uses_single_shared_optimizer.2 exCe exGf exDf exAdamT exDetector
     [[0]] [[0]] (by decide)⟩

/-- Claim C6 counterexample: fit_query does persist a side effect on the
detector — after a concrete call, the detector differs from the input
detector (its query_model attribute now holds the query-scoped model). -/
theorem fit_query_side_effect_counterexample :
    ¬ ((fit_query exCfg exGf exDf exAdamQ exKernel exDetector [[0]]).detector
        = exDetector) := by
  intro heq
  have hqm : (fit_query exCfg exGf exDf exAdamQ exKernel exDetector [[0]]).detector.queryModel
      = exDetector.queryModel := by rw [heq]
  exact absurd hqm (by decide)

/-- Claim C6 (amended): fit_query stores its query-scoped state (the affine
map's variable ids, the query optimizer and the query model's trainable
variable list) on the detector as query_model, which persists after the call
and overwrites any previous value; the loss histories and decision scores are
unchanged, and the persisted query_model of an earlier call is never read — a
later fit_query behaves identically whatever query_model held before. -/
theorem fit_query_persists_but_never_reads_query_model
    (cfg : Config) (Gf : Store → Mat → Bool → Mat)
    (Df : Store → Mat → Bool → Vec × Mat)
    (adam : ℕ → Mat → Mat) (kernelInit : Mat) (d : Detector) (q : Mat)
    (h1 : q.length = 1) (h2 : q.headI.length = d.nFeatures) :
    (fit_query cfg Gf Df adam kernelInit d q).detector.queryModel
        = some ⟨d.nextId, d.nextId + 1, d.nextId + 2,
            d.nextId :: (d.nextId + 1) :: (d.genVarIds ++ d.discVarIds)⟩
    ∧ (fit_query cfg Gf Df adam kernelInit d q).detector.hist_loss_generator
        = d.hist_loss_generator
    ∧ (fit_query cfg Gf Df adam kernelInit d q).detector.hist_loss_discriminator
        = d.hist_loss_discriminator
    ∧ (fit_query cfg Gf Df adam kernelInit d q).detector.decisionScores
        = d.decisionScores
    ∧ (∀ qm : Option QueryModel,
        fit_query cfg Gf Df adam kernelInit { d with queryModel := qm } q
          = fit_query cfg Gf Df adam kernelInit d q) := by
  obtain ⟨lat, nf, gv, dv, go, dopt, st, oi, hg, hd, qm0, ds, sc, ni⟩ := d
  refine ⟨?_, ?_, ?_, ?_, ?_⟩
  · simp only [fit_query, if_pos h1, if_pos h2]
  · simp only [fit_query, if_pos h1, if_pos h2]
  · simp only [fit_query, if_pos h1, if_pos h2]
  · simp only [fit_query, if_pos h1, if_pos h2]
  · intro qm
    simp only [fit_query, if_pos h1]
    simp only at h2
    simp only [if_pos h2]

/-- Witness for C6's amended theorem on a concrete detector and query. -/
theorem fit_query_persists_but_never_reads_query_model_witness :
    (fit_query exCfg exGf exDf exAdamQ exKernel exDetector [[0]]).detector.queryModel
        = some ⟨exDetector.nextId, exDetector.nextId + 1, exDetector.nextId + 2,
            exDetector.nextId :: (exDetector.nextId + 1)
              :: (exDetector.genVarIds ++ exDetector.discVarIds)⟩
    ∧ (fit_query exCfg exGf exDf exAdamQ exKernel exDetector [[0]]).detector.hist_loss_generator
        = exDetector.hist_loss_generator
    ∧ (fit_query exCfg exGf exDf exAdamQ exKernel exDetector [[0]]).detector.hist_loss_discriminator
        = exDetector.hist_loss_discriminator
    ∧ (fit_query exCfg exGf exDf exAdamQ exKernel exDetector [[0]]).detector.decisionScores
        = exDetector.decisionScores
    ∧ (∀ qm : Option QueryModel,
        fit_query exCfg exGf exDf exAdamQ exKernel { exDetector with queryModel := qm } [[0]]
          = fit_query exCfg exGf exDf exAdamQ exKernel exDetector [[0]]) :=
  fit_query_persists_but_never_reads_query_model exCfg exGf exDf exAdamQ exKernel
    exDetector [[0]] (by decide) (by decide)

/-- Claim C7: fit_query requires exactly one query sample with exactly
n_features entries; any other shape fails synchronously with a shape error,
leaving the detector exactly as it was. -/
theorem fit_query_rejects_malformed_query
    (cfg : Config) (Gf : Store → Mat → Bool → Mat)
    (Df : Store → Mat → Bool → Vec × Mat)
    (adam : ℕ → Mat → Mat) (kernelInit : Mat) (d : Detector) (q : Mat)
    (hbad : q.length ≠ 1 ∨ q.headI.length ≠ d.nFeatures) :
    fit_query cfg Gf Df adam kernelInit d q
      = ⟨d, Except.error QueryError.shapeError, []⟩ := by
  by_cases h1 : q.length = 1
  · have h2 : q.headI.length ≠ d.nFeatures := by
      rcases hbad with hb | hb
      · exact absurd h1 hb
      · exact hb
    simp only [fit_query, if_pos h1, if_neg h2]
  · simp only [fit_query, if_neg h1]

/-- Witness for C7: a two-row query batch is rejected with a shape error. -/
theorem fit_query_rejects_malformed_query_witness :
    fit_query exCfg exGf exDf exAdamQ exKernel exDetector [[0], [0]]
      = ⟨exDetector, Except.error QueryError.shapeError, []⟩ :=
  fit_query_rejects_malformed_query exCfg exGf exDf exAdamQ exKernel exDetector
    [[0], [0]] (Or.inl (by decide))

/-- Claim C8: on a freshly constructed detector (fit never called),
decision_function fails with a not-fitted error — it never silently returns a
score sequence. -/
theorem decision_function_before_fit_errors
    (cfg : Config) (st : AnoGANState) (Gf : Store → Mat → Bool → Mat)
    (Df : Store → Mat → Bool → Vec × Mat)
    (adamQ : ℕ → Mat → Mat) (kernelInit : ℕ → Mat) (h : Heap) (xRef : ℕ)
    (hinit : anogan_init cfg = Except.ok st) :
    decision_function st Gf Df adamQ kernelInit h xRef
      = Except.error PredictError.notFitted := by
  unfold anogan_init at hinit
  by_cases hc : base_detector_contamination_ok cfg.contamination = true
  · rw [if_pos hc] at hinit
    by_cases hd : check_parameter cfg.dropout_rate 0 1 true = true
    · rw [if_pos hd] at hinit
      injection hinit with hst
      rw [← hst]
      rfl
    · rw [if_neg hd] at hinit
      cases hinit
  · rw [if_neg hc] at hinit
    cases hinit

/-- Witness for C8 on a concretely constructed detector. -/
theorem decision_function_before_fit_errors_witness :
    decision_function { cfg := exCfg, fitted := none } exGf exDf exAdamQ
      (fun _ => exKernel) exHeap 0 = Except.error PredictError.notFitted :=
  decision_function_before_fit_errors exCfg { cfg := exCfg, fitted := none } exGf exDf
    exAdamQ (fun _ => exKernel) exHeap 0
    (by
      unfold anogan_init
      rw [if_pos ?_, if_pos ?_]
      · simp only [check_parameter, exCfg, Bool.and_eq_true, decide_eq_true_eq]
        norm_num
      · simp only [base_detector_contamination_ok, exCfg, Bool.and_eq_true,
          decide_eq_true_eq]
        norm_num)

def cfgWithDropout (q : ℚ) : Config := { exCfg with dropout_rate := q }

/-- Claim C9: with otherwise valid hyperparameters, construction succeeds for
every dropout_rate in [0,1) and fails with a configuration error for every
dropout_rate outside [0,1). -/
theorem construction_validates_dropout_rate (q : ℚ) :
    (0 ≤ q ∧ q < 1 →
      anogan_init (cfgWithDropout q) = Except.ok { cfg := cfgWithDropout q, fitted := none })
    ∧ (¬ (0 ≤ q ∧ q < 1) →
      anogan_init (cfgWithDropout q) = Except.error ConfigError.invalidDropout) := by
  have hc : base_detector_contamination_ok (cfgWithDropout q).contamination = true := by
    show base_detector_contamination_ok exCfg.contamination = true
    simp only [base_detector_contamination_ok, exCfg, Bool.and_eq_true, decide_eq_true_eq]
    norm_num
  constructor
  · intro hq
    have hcp : check_parameter (cfgWithDropout q).dropout_rate 0 1 true = true := by
      simp [check_parameter, cfgWithDropout, exCfg]
      exact ⟨hq.1, hq.2⟩
    unfold anogan_init
    rw [if_pos hc, if_pos hcp]
  · intro hq
    have hcp : ¬ (check_parameter (cfgWithDropout q).dropout_rate 0 1 true = true) := by
      intro hcontra
      apply hq
      simp [check_parameter, cfgWithDropout, exCfg] at hcontra
      exact hcontra
    unfold anogan_init
    rw [if_pos hc, if_neg hcp]

/-- Witness for C9: dropout 1/2 is accepted, dropout 2 is rejected. -/
theorem construction_validates_dropout_rate_witness :
    anogan_init (cfgWithDropout (1/2))
      = Except.ok { cfg := cfgWithDropout (1/2), fitted := none }
    ∧ anogan_init (cfgWithDropout 2) = Except.error ConfigError.invalidDropout :=
  ⟨(construction_validates_dropout_rate (1/2)).1 (by norm_num),
   (construction_validates_dropout_rate 2).2 (by norm_num)⟩

/-! Lemmas about the fit driver's epoch loop and per-sample scoring loop. -/

lemma train_step_hist_gen_len (ce : Vec → Vec → ℚ) (Gf : Store → Mat → Bool → Mat)
    (Df : Store → Mat → Bool → Vec × Mat) (adam : ℕ → ℕ → Mat → Mat)
    (d : Detector) (X noise : Mat) :
    (train_step ce Gf Df adam d X noise).1.hist_loss_generator.length
      = d.hist_loss_generator.length + 1 := by
  simp [train_step]

lemma train_step_hist_disc_len (ce : Vec → Vec → ℚ) (Gf : Store → Mat → Bool → Mat)
    (Df : Store → Mat → Bool → Vec × Mat) (adam : ℕ → ℕ → Mat → Mat)
    (d : Detector) (X noise : Mat) :
    (train_step ce Gf Df adam d X noise).1.hist_loss_discriminator.length
      = d.hist_loss_discriminator.length + 1 := by
  simp [train_step]

lemma train_step_nFeatures (ce : Vec → Vec → ℚ) (Gf : Store → Mat → Bool → Mat)
    (Df : Store → Mat → Bool → Vec × Mat) (adam : ℕ → ℕ → Mat → Mat)
    (d : Detector) (X noise : Mat) :
    (train_step ce Gf Df adam d X noise).1.nFeatures = d.nFeatures := rfl

lemma noise_mat_length (noiseEntry : ℕ → ℕ → ℕ → ℚ) (e rows latent : ℕ) :
    (noise_mat noiseEntry e rows latent).length = rows := by
  simp [noise_mat]

lemma noise_mat_row_length (noiseEntry : ℕ → ℕ → ℕ → ℚ) (e rows latent : ℕ)
    (row : Vec) (h : row ∈ noise_mat noiseEntry e rows latent) :
    row.length = latent := by
  simp only [noise_mat, List.mem_map] at h
  obtain ⟨r, _, rfl⟩ := h
  simp

section TrainLoopLemmas

variable (ce : Vec → Vec → ℚ) (Gf : Store → Mat → Bool → Mat)
  (Df : Store → Mat → Bool → Vec × Mat) (adamT : ℕ → ℕ → Mat → Mat)
  (shuffle : ℕ → Mat → Mat) (noiseEntry : ℕ → ℕ → ℕ → ℚ) (cfg : Config)
  (n_samples xnormRef : ℕ)

lemma train_loop_trace_length : ∀ (k e : ℕ) (h : Heap) (d : Detector),
    ((train_loop ce Gf Df adamT shuffle noiseEntry cfg n_samples xnormRef
      e k h d).2.2).length = k := by
  intro k
  induction k with
  | zero => intro e h d; rfl
  | succ k ih =>
    intro e h d
    simp only [train_loop, List.length_cons, ih]

lemma train_loop_hist_lengths : ∀ (k e : ℕ) (h : Heap) (d : Detector),
    ((train_loop ce Gf Df adamT shuffle noiseEntry cfg n_samples xnormRef
        e k h d).2.1.hist_loss_generator.length = d.hist_loss_generator.length + k)
    ∧ ((train_loop ce Gf Df adamT shuffle noiseEntry cfg n_samples xnormRef
        e k h d).2.1.hist_loss_discriminator.length
          = d.hist_loss_discriminator.length + k) := by
  intro k
  induction k with
  | zero => intro e h d; exact ⟨rfl, rfl⟩
  | succ k ih =>
    intro e h d
    simp only [train_loop]
    constructor
    · rw [(ih (e + 1) _ _).1, train_step_hist_gen_len]
      omega
    · rw [(ih (e + 1) _ _).2, train_step_hist_disc_len]
      omega

lemma train_loop_nFeatures : ∀ (k e : ℕ) (h : Heap) (d : Detector),
    (train_loop ce Gf Df adamT shuffle noiseEntry cfg n_samples xnormRef
      e k h d).2.1.nFeatures = d.nFeatures := by
  intro k
  induction k with
  | zero => intro e h d; rfl
  | succ k ih =>
    intro e h d
    simp only [train_loop]
    rw [ih (e + 1) _ _, train_step_nFeatures]

lemma train_loop_heap_mem (r : ℕ) (hr : r ≠ xnormRef) :
    ∀ (k e : ℕ) (h : Heap) (d : Detector),
    (train_loop ce Gf Df adamT shuffle noiseEntry cfg n_samples xnormRef
      e k h d).1.mem r = h.mem r := by
  intro k
  induction k with
  | zero => intro e h d; rfl
  | succ k ih =>
    intro e h d
    simp only [train_loop]
    rw [ih (e + 1) _ _]
    simp [Heap.write, hr]

lemma train_loop_heap_next : ∀ (k e : ℕ) (h : Heap) (d : Detector),
    (train_loop ce Gf Df adamT shuffle noiseEntry cfg n_samples xnormRef
      e k h d).1.next = h.next := by
  intro k
  induction k with
  | zero => intro e h d; rfl
  | succ k ih =>
    intro e h d
    simp only [train_loop]
    rw [ih (e + 1) _ _]
    rfl

lemma train_loop_trace_props (hshuf : ∀ (e : ℕ) (M : Mat), (shuffle e M).length = M.length) :
    ∀ (k e : ℕ) (h : Heap) (d : Detector), (h.read xnormRef).length = n_samples →
    ∀ rec ∈ (train_loop ce Gf Df adamT shuffle noiseEntry cfg n_samples xnormRef
        e k h d).2.2,
      rec.batch = rec.shuffled.take (min cfg.batch_size n_samples)
      ∧ rec.batch.length = min cfg.batch_size n_samples
      ∧ rec.noise.length = rec.batch.length
      ∧ ∀ row ∈ rec.noise, row.length = cfg.latent_dim_G := by
  intro k
  induction k with
  | zero => intro e h d _ rec hrec; cases hrec
  | succ k ih =>
    intro e h d hlen rec hrec
    have hsh : (shuffle e (h.read xnormRef)).length = n_samples := by
      rw [hshuf]; exact hlen
    simp only [train_loop] at hrec
    rcases List.mem_cons.mp hrec with hhd | htl
    · subst hhd
      refine ⟨rfl, ?_, ?_, ?_⟩
      · simp only [List.length_take, hsh]
        omega
      · simp only [noise_mat_length]
      · intro row hrow
        exact noise_mat_row_length noiseEntry _ _ _ row hrow
    · have hh1 : (((h.write xnormRef (shuffle e (h.read xnormRef)))).read
          xnormRef).length = n_samples := by
        rw [Heap.read_write_self]; exact hsh
      exact ih (e + 1) _ _ hh1 rec htl

end TrainLoopLemmas

lemma fit_query_fields (cfg : Config) (Gf : Store → Mat → Bool → Mat)
    (Df : Store → Mat → Bool → Vec × Mat) (adam : ℕ → Mat → Mat)
    (kernelInit : Mat) (d : Detector) (q : Mat) :
    (fit_query cfg Gf Df adam kernelInit d q).detector.nFeatures = d.nFeatures
    ∧ (fit_query cfg Gf Df adam kernelInit d q).detector.hist_loss_generator
        = d.hist_loss_generator
    ∧ (fit_query cfg Gf Df adam kernelInit d q).detector.hist_loss_discriminator
        = d.hist_loss_discriminator := by
  by_cases h1 : q.length = 1
  · by_cases h2 : q.headI.length = d.nFeatures
    · simp [fit_query, if_pos h1, if_pos h2]
    · simp [fit_query, if_pos h1, if_neg h2]
  · simp [fit_query, if_neg h1]

lemma fit_query_result_ok (cfg : Config) (Gf : Store → Mat → Bool → Mat)
    (Df : Store → Mat → Bool → Vec × Mat) (adam : ℕ → Mat → Mat)
    (kernelInit : Mat) (d : Detector) (q : Mat)
    (h1 : q.length = 1) (h2 : q.headI.length = d.nFeatures)
    (hE : 1 ≤ cfg.epochs_query) :
    ∃ t, (fit_query cfg Gf Df adam kernelInit d q).result = Except.ok t := by
  obtain ⟨m, hm⟩ : ∃ m, cfg.epochs_query = m + 1 := ⟨cfg.epochs_query - 1, by omega⟩
  have hres : (fit_query cfg Gf Df adam kernelInit d q).result =
      Except.ok (query_iter_loss Gf Df d.latent d.nextId (d.nextId + 1) q.headI
        (query_store_seq adam (d.nextId :: (d.nextId + 1) :: (d.genVarIds ++ d.discVarIds))
          (setStore (setStore d.store d.nextId kernelInit) (d.nextId + 1)
            [List.replicate d.latent (0 : ℚ)]) 0 m)) := by
    simp only [fit_query, if_pos h1, if_pos h2, hm]
    rw [query_loop_loss]
  exact ⟨_, hres⟩

lemma score_loop_ok (cfg : Config) (Gf : Store → Mat → Bool → Mat)
    (Df : Store → Mat → Bool → Vec × Mat) (adamQ : ℕ → Mat → Mat)
    (kernelInit : ℕ → Mat) (hE : 1 ≤ cfg.epochs_query) :
    ∀ (rows : List Vec) (i : ℕ) (d : Detector),
      (∀ row ∈ rows, row.length = d.nFeatures) →
    ∃ dF scores rowsT,
      score_loop cfg Gf Df adamQ kernelInit rows i d = Except.ok (dF, scores, rowsT)
      ∧ scores.length = rows.length
      ∧ rowsT = rows.map (fun r => [r])
      ∧ dF.hist_loss_generator = d.hist_loss_generator
      ∧ dF.hist_loss_discriminator = d.hist_loss_discriminator := by
  intro rows
  induction rows with
  | nil => intro i d _; exact ⟨d, [], [], rfl, rfl, rfl, rfl, rfl⟩
  | cons row rest ih =>
    intro i d hlen
    have h1 : ([row] : Mat).length = 1 := rfl
    have h2 : ([row] : Mat).headI.length = d.nFeatures :=
      hlen row (List.mem_cons_self row rest)
    obtain ⟨t, ht⟩ := fit_query_result_ok cfg Gf Df adamQ (kernelInit i) d [row] h1 h2 hE
    have hflds := fit_query_fields cfg Gf Df adamQ (kernelInit i) d [row]
    have hrest : ∀ row' ∈ rest,
        row'.length = (fit_query cfg Gf Df adamQ (kernelInit i) d [row]).detector.nFeatures := by
      rw [hflds.1]
      exact fun r hr => hlen r (List.mem_cons_of_mem _ hr)
    obtain ⟨dF, scores, rowsT, heq, hsl, hrt, hg, hdd⟩ :=
      ih (i + 1) ((fit_query cfg Gf Df adamQ (kernelInit i) d [row]).detector) hrest
    refine ⟨dF, t :: scores, [row] :: rowsT, ?_, ?_, ?_, ?_, ?_⟩
    · simp only [score_loop]
      rw [ht, heq]
    · simp [hsl]
    · simp [hrt]
    · rw [hg, hflds.2.1]
    · rw [hdd, hflds.2.2]

lemma length_of_map_length_eq (A B : Mat)
    (hmap : List.map List.length A = List.map List.length B) : A.length = B.length := by
  have h := congrArg List.length hmap
  simpa using h

lemma rows_length_of_map_length_eq (A B : Mat) (c : ℕ)
    (hmap : List.map List.length A = List.map List.length B)
    (hB : ∀ row ∈ B, row.length = c) : ∀ row ∈ A, row.length = c := by
  intro row hrow
  have h1 : row.length ∈ List.map List.length A := List.mem_map_of_mem _ hrow
  rw [hmap] at h1
  obtain ⟨b, hb, hbl⟩ := List.mem_map.mp h1
  rw [← hbl]
  exact hB b hb

lemma fit_spec (cfg : Config) (ce : Vec → Vec → ℚ) (Gf : Store → Mat → Bool → Mat)
    (Df : Store → Mat → Bool → Vec × Mat) (adamT : ℕ → ℕ → Mat → Mat)
    (adamQ : ℕ → Mat → Mat) (kernelInit : ℕ → Mat)
    (shuffle : ℕ → Mat → Mat) (noiseEntry : ℕ → ℕ → ℕ → ℚ)
    (scalerFit : Mat → Mat → Mat) (init : Store) (h : Heap) (xRef : ℕ)
    (hn : (h.read xRef).length ≠ 0)
    (hf : (h.read xRef).headI.length ≠ 0)
    (hrect : ∀ row ∈ h.read xRef, row.length = (h.read xRef).headI.length)
    (hshuf : ∀ (e : ℕ) (M : Mat), (shuffle e M).length = M.length)
    (hscale : ∀ A B : Mat, List.map List.length (scalerFit A B) = List.map List.length B)
    (hE : 1 ≤ cfg.epochs_query) (hx : xRef < h.next) :
    ∃ res : FitResult, fit cfg ce Gf Df adamT adamQ kernelInit shuffle noiseEntry
        scalerFit init h xRef = Except.ok res
      ∧ res.trainTrace.length = cfg.epochs
      ∧ (∀ rec ∈ res.trainTrace,
          rec.batch = rec.shuffled.take (min cfg.batch_size (h.read xRef).length)
          ∧ rec.batch.length = min cfg.batch_size (h.read xRef).length
          ∧ rec.noise.length = rec.batch.length
          ∧ ∀ row ∈ rec.noise, row.length = cfg.latent_dim_G)
      ∧ res.detector.hist_loss_generator.length = cfg.epochs
      ∧ res.detector.hist_loss_discriminator.length = cfg.epochs
      ∧ res.heap.mem xRef = h.mem xRef
      ∧ res.queryRows = ((if cfg.preprocessing then
            scalerFit (h.read xRef) (h.read xRef) else h.read xRef).map (fun r => [r]))
      ∧ res.scores.length = (h.read xRef).length := by
  have hall : (h.read xRef).all
      (fun row => row.length = (h.read xRef).headI.length) = true := by
    rw [List.all_eq_true]
    intro row hrow
    simpa using hrect row hrow
  have hXN0len : (if cfg.preprocessing then scalerFit (h.read xRef) (h.read xRef)
      else h.read xRef).length = (h.read xRef).length := by
    cases cfg.preprocessing with
    | false => rfl
    | true =>
      simp only [if_pos]
      exact length_of_map_length_eq _ _ (hscale (h.read xRef) (h.read xRef))
  have hXNrows : ∀ row ∈ (if cfg.preprocessing then scalerFit (h.read xRef) (h.read xRef)
      else h.read xRef), row.length = (h.read xRef).headI.length := by
    cases cfg.preprocessing with
    | false => exact hrect
    | true =>
      simp only [if_pos]
      exact rows_length_of_map_length_eq _ _ _ (hscale (h.read xRef) (h.read xRef)) hrect
  have hxne : xRef ≠ (h.alloc (if cfg.preprocessing then
      scalerFit (h.read xRef) (h.read xRef) else h.read xRef)).2 := by
    show xRef ≠ h.next
    omega
  have hX2 : (train_loop ce Gf Df adamT shuffle noiseEntry cfg (h.read xRef).length
      (h.alloc (if cfg.preprocessing then scalerFit (h.read xRef) (h.read xRef)
        else h.read xRef)).2 0 cfg.epochs
      (h.alloc (if cfg.preprocessing then scalerFit (h.read xRef) (h.read xRef)
        else h.read xRef)).1
      (build_model cfg (h.read xRef).headI.length 0 init)).1.read xRef
        = h.read xRef := by
    show (train_loop ce Gf Df adamT shuffle noiseEntry cfg (h.read xRef).length
      (h.alloc _).2 0 cfg.epochs (h.alloc _).1
      (build_model cfg (h.read xRef).headI.length 0 init)).1.mem xRef = h.mem xRef
    rw [train_loop_heap_mem ce Gf Df adamT shuffle noiseEntry cfg _ _ xRef hxne]
    exact Heap.alloc_mem_ne h _ xRef (by omega)
  have hd1nf : ({ (train_loop ce Gf Df adamT shuffle noiseEntry cfg (h.read xRef).length
      (h.alloc (if cfg.preprocessing then scalerFit (h.read xRef) (h.read xRef)
        else h.read xRef)).2 0 cfg.epochs
      (h.alloc (if cfg.preprocessing then scalerFit (h.read xRef) (h.read xRef)
        else h.read xRef)).1
      (build_model cfg (h.read xRef).headI.length 0 init)).2.1 with
        scaler_ := scalerFit (h.read xRef) } : Detector).nFeatures
        = (h.read xRef).headI.length := by
    show (train_loop ce Gf Df adamT shuffle noiseEntry cfg (h.read xRef).length
      (h.alloc _).2 0 cfg.epochs (h.alloc _).1
      (build_model cfg (h.read xRef).headI.length 0 init)).2.1.nFeatures = _
    rw [train_loop_nFeatures]
    rfl
  obtain ⟨dF, scores, rowsT, heq, hsl, hrt, hg, hdd⟩ :=
    score_loop_ok cfg Gf Df adamQ kernelInit hE
      (if cfg.preprocessing then scalerFit (h.read xRef) (h.read xRef) else h.read xRef)
      0
      ({ (train_loop ce Gf Df adamT shuffle noiseEntry cfg (h.read xRef).length
        (h.alloc (if cfg.preprocessing then scalerFit (h.read xRef) (h.read xRef)
          else h.read xRef)).2 0 cfg.epochs
        (h.alloc (if cfg.preprocessing then scalerFit (h.read xRef) (h.read xRef)
          else h.read xRef)).1
        (build_model cfg (h.read xRef).headI.length 0 init)).2.1 with
          scaler_ := scalerFit (h.read xRef) })
      (by rw [hd1nf]; exact hXNrows)
  simp only [fit, if_neg hn, if_neg hf, if_pos hall, hX2]
  rw [heq]
  refine ⟨_, rfl, ?_, ?_, ?_, ?_, ?_, ?_, ?_⟩
  · exact train_loop_trace_length ce Gf Df adamT shuffle noiseEntry cfg _ _ cfg.epochs 0 _ _
  · intro rec hrec
    refine train_loop_trace_props ce Gf Df adamT shuffle noiseEntry cfg _ _ hshuf
      cfg.epochs 0 _ _ ?_ rec hrec
    rw [Heap.alloc_read_self]
    exact hXN0len
  · show ({ dF with decisionScores := some scores } : Detector).hist_loss_generator.length
      = cfg.epochs
    show dF.hist_loss_generator.length = cfg.epochs
    rw [hg]
    show (train_loop ce Gf Df adamT shuffle noiseEntry cfg (h.read xRef).length
      (h.alloc _).2 0 cfg.epochs (h.alloc _).1
      (build_model cfg (h.read xRef).headI.length 0 init)).2.1.hist_loss_generator.length
        = cfg.epochs
    rw [(train_loop_hist_lengths ce Gf Df adamT shuffle noiseEntry cfg _ _
      cfg.epochs 0 _ _).1]
    simp [build_model]
  · show dF.hist_loss_discriminator.length = cfg.epochs
    rw [hdd]
    show (train_loop ce Gf Df adamT shuffle noiseEntry cfg (h.read xRef).length
      (h.alloc _).2 0 cfg.epochs (h.alloc _).1
      (build_model cfg (h.read xRef).headI.length 0 init)).2.1.hist_loss_discriminator.length
        = cfg.epochs
    rw [(train_loop_hist_lengths ce Gf Df adamT shuffle noiseEntry cfg _ _
      cfg.epochs 0 _ _).2]
    simp [build_model]
  · rw [Heap.alloc_mem_ne]
    · rw [train_loop_heap_mem ce Gf Df adamT shuffle noiseEntry cfg _ _ xRef hxne]
      exact Heap.alloc_mem_ne h _ xRef (by omega)
    · rw [train_loop_heap_next]
      show xRef ≠ h.next + 1
      omega
  · exact hrt
  · rw [hsl]
    exact hXN0len

lemma decision_function_spec (st : AnoGANState) (Gf : Store → Mat → Bool → Mat)
    (Df : Store → Mat → Bool → Vec × Mat) (adamQ : ℕ → Mat → Mat)
    (kernelInit : ℕ → Mat) (h : Heap) (xRef : ℕ) (d : Detector)
    (hfit : st.fitted = some d)
    (hn : (h.read xRef).length ≠ 0)
    (hf : (h.read xRef).headI.length ≠ 0)
    (hrect : ∀ row ∈ h.read xRef, row.length = (h.read xRef).headI.length)
    (hnf : d.nFeatures = (h.read xRef).headI.length)
    (hsc : List.map List.length (d.scaler_ (h.read xRef))
      = List.map List.length (h.read xRef))
    (hE : 1 ≤ st.cfg.epochs_query) (hx : xRef < h.next) :
    ∃ res : PredictResult,
      decision_function st Gf Df adamQ kernelInit h xRef = Except.ok res
      ∧ res.heap.mem xRef = h.mem xRef
      ∧ res.queryRows = ((if st.cfg.preprocessing then d.scaler_ (h.read xRef)
          else h.read xRef).map (fun r => [r]))
      ∧ res.scores.length = (h.read xRef).length := by
  have hall : (h.read xRef).all
      (fun row => row.length = (h.read xRef).headI.length) = true := by
    rw [List.all_eq_true]
    intro row hrow
    simpa using hrect row hrow
  have hXN0len : (if st.cfg.preprocessing then d.scaler_ (h.read xRef)
      else h.read xRef).length = (h.read xRef).length := by
    cases st.cfg.preprocessing with
    | false => rfl
    | true =>
      simp only [if_pos]
      exact length_of_map_length_eq _ _ hsc
  have hXNrows : ∀ row ∈ (if st.cfg.preprocessing then d.scaler_ (h.read xRef)
      else h.read xRef), row.length = d.nFeatures := by
    rw [hnf]
    cases st.cfg.preprocessing with
    | false => exact hrect
    | true =>
      simp only [if_pos]
      exact rows_length_of_map_length_eq _ _ _ hsc hrect
  obtain ⟨dF, scores, rowsT, heq, hsl, hrt, _, _⟩ :=
    score_loop_ok st.cfg Gf Df adamQ kernelInit hE
      (if st.cfg.preprocessing then d.scaler_ (h.read xRef) else h.read xRef) 0 d hXNrows
  simp only [decision_function, hfit, if_neg hn, if_neg hf, if_pos hall]
  rw [heq]
  refine ⟨_, rfl, ?_, ?_, ?_⟩
  · exact Heap.alloc_mem_ne h _ xRef (by omega)
  · exact hrt
  · rw [hsl]
    exact hXN0len

/-- Claim C4: fit performs exactly one training step per epoch — epochs many
steps in total; each epoch shuffles the working copy, draws one minibatch of
size min(batch_size, n_samples) from the front of the shuffled array paired
with an equal count of latent-noise rows of width latent_dim_G, and after fit
both loss histories have length exactly epochs. -/
theorem fit_one_step_per_epoch
    (cfg : Config) (ce : Vec → Vec → ℚ) (Gf : Store → Mat → Bool → Mat)
    (Df : Store → Mat → Bool → Vec × Mat) (adamT : ℕ → ℕ → Mat → Mat)
    (adamQ : ℕ → Mat → Mat) (kernelInit : ℕ → Mat)
    (shuffle : ℕ → Mat → Mat) (noiseEntry : ℕ → ℕ → ℕ → ℚ)
    (scalerFit : Mat → Mat → Mat) (init : Store) (h : Heap) (xRef : ℕ)
    (hn : (h.read xRef).length ≠ 0)
    (hf : (h.read xRef).headI.length ≠ 0)
    (hrect : ∀ row ∈ h.read xRef, row.length = (h.read xRef).headI.length)
    (hshuf : ∀ (e : ℕ) (M : Mat), (shuffle e M).length = M.length)
    (hscale : ∀ A B : Mat, List.map List.length (scalerFit A B) = List.map List.length B)
    (hE : 1 ≤ cfg.epochs_query) (hx : xRef < h.next) :
    ∃ res : FitResult, fit cfg ce Gf Df adamT adamQ kernelInit shuffle noiseEntry
        scalerFit init h xRef = Except.ok res
      ∧ res.trainTrace.length = cfg.epochs
      ∧ (∀ rec ∈ res.trainTrace,
          rec.batch = rec.shuffled.take (min cfg.batch_size (h.read xRef).length)
          ∧ rec.batch.length = min cfg.batch_size (h.read xRef).length
          ∧ rec.noise.length = rec.batch.length
          ∧ ∀ row ∈ rec.noise, row.length = cfg.latent_dim_G)
      ∧ res.detector.hist_loss_generator.length = cfg.epochs
      ∧ res.detector.hist_loss_discriminator.length = cfg.epochs := by
  obtain ⟨res, hres, h1, h2, h3, h4, _, _, _⟩ :=
    fit_spec cfg ce Gf Df adamT adamQ kernelInit shuffle noiseEntry scalerFit init
      h xRef hn hf hrect hshuf hscale hE hx
  exact ⟨res, hres, h1, h2, h3, h4⟩

/-- Witness for C4 on a one-sample, one-epoch concrete fit. -/
theorem fit_one_step_per_epoch_witness :
    ∃ res : FitResult, fit exCfg exCe exGf exDf exAdamT exAdamQ (fun _ => exKernel)
        (fun _ M => M) (fun _ _ _ => 0) (fun _ B => B) exStore exHeap 0 = Except.ok res
      ∧ res.trainTrace.length = exCfg.epochs
      ∧ (∀ rec ∈ res.trainTrace,
          rec.batch = rec.shuffled.take (min exCfg.batch_size (exHeap.read 0).length)
          ∧ rec.batch.length = min exCfg.batch_size (exHeap.read 0).length
          ∧ rec.noise.length = rec.batch.length
          ∧ ∀ row ∈ rec.noise, row.length = exCfg.latent_dim_G)
      ∧ res.detector.hist_loss_generator.length = exCfg.epochs
      ∧ res.detector.hist_loss_discriminator.length = exCfg.epochs :=
  fit_one_step_per_epoch exCfg exCe exGf exDf exAdamT exAdamQ (fun _ => exKernel)
    (fun _ M => M) (fun _ _ _ => 0) (fun _ B => B) exStore exHeap 0
    (by decide) (by decide) (by decide) (fun _ _ => rfl) (fun _ _ => rfl)
    (by decide) (by decide)

/-- Claim C10: neither fit nor decision_function mutates the caller's input
array — the in-place shuffling touches only the freshly allocated working
copy; after training, fit re-derives the working array from the untouched X,
so the samples scored (and hence the decision scores) follow the original
input order, one score per sample. -/
theorem fit_and_decision_function_preserve_caller_input :
    (∀ (cfg : Config) (ce : Vec → Vec → ℚ) (Gf : Store → Mat → Bool → Mat)
        (Df : Store → Mat → Bool → Vec × Mat) (adamT : ℕ → ℕ → Mat → Mat)
        (adamQ : ℕ → Mat → Mat) (kernelInit : ℕ → Mat)
        (shuffle : ℕ → Mat → Mat) (noiseEntry : ℕ → ℕ → ℕ → ℚ)
        (scalerFit : Mat → Mat → Mat) (init : Store) (h : Heap) (xRef : ℕ),
      (h.read xRef).length ≠ 0 →
      (h.read xRef).headI.length ≠ 0 →
      (∀ row ∈ h.read xRef, row.length = (h.read xRef).headI.length) →
      (∀ (e : ℕ) (M : Mat), (shuffle e M).length = M.length) →
      (∀ A B : Mat, List.map List.length (scalerFit A B) = List.map List.length B) →
      1 ≤ cfg.epochs_query → xRef < h.next →
      ∃ res : FitResult, fit cfg ce Gf Df adamT adamQ kernelInit shuffle noiseEntry
          scalerFit init h xRef = Except.ok res
        ∧ res.heap.mem xRef = h.mem xRef
        ∧ res.queryRows = ((if cfg.preprocessing then
            scalerFit (h.read xRef) (h.read xRef) else h.read xRef).map (fun r => [r]))
        ∧ res.scores.length = (h.read xRef).length)
    ∧ (∀ (st : AnoGANState) (Gf : Store → Mat → Bool → Mat)
        (Df : Store → Mat → Bool → Vec × Mat) (adamQ : ℕ → Mat → Mat)
        (kernelInit : ℕ → Mat) (h : Heap) (xRef : ℕ) (d : Detector),
      st.fitted = some d →
      (h.read xRef).length ≠ 0 →
      (h.read xRef).headI.length ≠ 0 →
      (∀ row ∈ h.read xRef, row.length = (h.read xRef).headI.length) →
      d.nFeatures = (h.read xRef).headI.length →
      List.map List.length (d.scaler_ (h.read xRef)) = List.map List.length (h.read xRef) →
      1 ≤ st.cfg.epochs_query → xRef < h.next →
      ∃ res : PredictResult,
        decision_function st Gf Df adamQ kernelInit h xRef = Except.ok res
        ∧ res.heap.mem xRef = h.mem xRef
        ∧ res.queryRows = ((if st.cfg.preprocessing then d.scaler_ (h.read xRef)
            else h.read xRef).map (fun r => [r]))
        ∧ res.scores.length = (h.read xRef).length) := by
  constructor
  · intro cfg ce Gf Df adamT adamQ kernelInit shuffle noiseEntry scalerFit init h xRef
      hn hf hrect hshuf hscale hE hx
    obtain ⟨res, hres, _, _, _, _, h5, h6, h7⟩ :=
      fit_spec cfg ce Gf Df adamT adamQ kernelInit shuffle noiseEntry scalerFit init
        h xRef hn hf hrect hshuf hscale hE hx
    exact ⟨res, hres, h5, h6, h7⟩
  · intro st Gf Df adamQ kernelInit h xRef d hfit hn hf hrect hnf hsc hE hx
    exact decision_function_spec st Gf Df adamQ kernelInit h xRef d hfit hn hf hrect
      hnf hsc hE hx

/-- Witness for C10: a concrete fit call and a concrete decision_function
call on a fitted detector, both leaving the caller's array untouched. -/
theorem fit_and_decision_function_preserve_caller_input_witness :
    (∃ res : FitResult, fit exCfg exCe exGf exDf exAdamT exAdamQ (fun _ => exKernel)
        (fun _ M => M) (fun _ _ _ => 0) (fun _ B => B) exStore exHeap 0 = Except.ok res
      ∧ res.heap.mem 0 = exHeap.mem 0
      ∧ res.queryRows = ((if exCfg.preprocessing then
          (fun _ B => B : Mat → Mat → Mat) (exHeap.read 0) (exHeap.read 0)
          else exHeap.read 0).map (fun r => [r]))
      ∧ res.scores.length = (exHeap.read 0).length)
    ∧ (∃ res : PredictResult,
        decision_function { cfg := exCfg, fitted := some exDetector } exGf exDf exAdamQ
          (fun _ => exKernel) exHeap 0 = Except.ok res
      ∧ res.heap.mem 0 = exHeap.mem 0
      ∧ res.queryRows = ((if exCfg.preprocessing then exDetector.scaler_ (exHeap.read 0)
          else exHeap.read 0).map (fun r => [r]))
      ∧ res.scores.length = (exHeap.read 0).length) :=
  ⟨fit_and_decision_function_preserve_caller_input.1 exCfg exCe exGf exDf exAdamT
      exAdamQ (fun _ => exKernel) (fun _ M => M) (fun _ _ _ => 0) (fun _ B => B)
      exStore exHeap 0 (by decide) (by decide) (by decide) (fun _ _ => rfl)
      (fun _ _ => rfl) (by decide) (by decide),
   fit_and_decision_function_preserve_caller_input.2
      { cfg := exCfg, fitted := some exDetector } exGf exDf exAdamQ (fun _ => exKernel)
      exHeap 0 exDetector rfl (by decide) (by decide) (by decide) (by decide) rfl
      (by decide) (by decide)⟩

end AnoGANSpec
